import Mathlib

/-!
Verification development for the B3d4 websocket dev-API client
(`src/gltfutils.js`: the gltf frame decoder and the `B3d4api` class).

The JavaScript code is shallowly embedded: byte buffers become `List Nat`
(each entry a byte value; `% 256` is applied wherever a `Uint8Array` cell is
read), JavaScript values become the inductive `JsValue`, and the mutable
`B3d4api` instance becomes the explicit state record `B3d4State` threaded
through the operations.  All definitions are executable.
-/

set_option autoImplicit false

/-- A JavaScript value, as far as the client code needs one.  `undef` models
the JavaScript `undefined` (absent property); numbers are modelled as
integers, which covers every numeric literal the code and the claims use
(floats and `NaN` do not occur in the scenarios under verification). -/
inductive JsValue where
  | undef : JsValue
  | null : JsValue
  | bool : Bool → JsValue
  | num : Int → JsValue
  | str : String → JsValue
  | arr : List JsValue → JsValue
  | obj : List (String × JsValue) → JsValue

/-- First binding of a key in an association list (JavaScript objects are
modelled as insertion-ordered association lists with unique keys). -/
def assocGet {α : Type} (m : List (String × α)) (k : String) : Option α :=
  match m with
  | [] => none
  | p :: rest => if p.1 = k then some p.2 else assocGet rest k

/-- Set a key: replace the existing binding in place, else append (the
update order of a JavaScript object). -/
def assocSet {α : Type} (m : List (String × α)) (k : String) (v : α) :
    List (String × α) :=
  match m with
  | [] => [(k, v)]
  | p :: rest => if p.1 = k then (k, v) :: rest else p :: assocSet rest k v

/-- Delete a key (JavaScript `delete obj[k]`). -/
def assocDelete {α : Type} (m : List (String × α)) (k : String) :
    List (String × α) :=
  m.filter (fun p => !(p.1 = k : Bool))

/-- Digits to the natural number they denote. -/
def digitsToNat (ds : List Char) : Nat :=
  ds.foldl (fun a c => a * 10 + (c.toNat - 48)) 0

/-- The canonical array index a string denotes, if any (the property names
under which a JavaScript array holds its elements). -/
def decimalIndex? (s : String) : Option Nat :=
  if s.data.isEmpty then none
  else if s.data.all Char.isDigit then
    if toString (digitsToNat s.data) = s then some (digitsToNat s.data) else none
  else none

/-- JavaScript property read `v[k]`.  Objects look keys up; arrays answer
canonical numeric indices; every other read yields `undefined`.  (JavaScript
throws on a property read from `null`/`undefined`; no claim exercises that
path, so the model conflates it with `undefined`.) -/
def jsGet (v : JsValue) (k : String) : JsValue :=
  match v with
  | JsValue.obj fs =>
      match assocGet fs k with
      | some w => w
      | none => JsValue.undef
  | JsValue.arr xs =>
      match decimalIndex? k with
      | some i => xs.getD i JsValue.undef
      | none => JsValue.undef
  | _ => JsValue.undef

/-- JavaScript property write `v[k] = w` on an object (the only receiver the
code writes to). -/
def jsSet (v : JsValue) (k : String) (w : JsValue) : JsValue :=
  match v with
  | JsValue.obj fs => JsValue.obj (assocSet fs k w)
  | other => other

/-- JavaScript truthiness. -/
def jsTruthy (v : JsValue) : Bool :=
  match v with
  | JsValue.undef => false
  | JsValue.null => false
  | JsValue.bool b => b
  | JsValue.num n => !(n = 0 : Bool)
  | JsValue.str s => !(s = "" : Bool)
  | JsValue.arr _ => true
  | JsValue.obj _ => true

/-- The strict comparison `v === "lit"` against a string literal. -/
def jsStrictEqStr (v : JsValue) (lit : String) : Bool :=
  match v with
  | JsValue.str s => s = lit
  | _ => false

/-- JavaScript coercion of a value used as a property key (`ToPropertyKey`).
Scalar cases are exact; the array/object cases are placeholders, since no
claim uses a structured value as a key. -/
def jsPropKey (v : JsValue) : String :=
  match v with
  | JsValue.str s => s
  | JsValue.num n => toString n
  | JsValue.bool b => if b then "true" else "false"
  | JsValue.null => "null"
  | JsValue.undef => "undefined"
  | JsValue.arr _ => ""
  | JsValue.obj _ => "[object Object]"

/-! ### A model of `JSON.parse`

A recursive-descent reader over the character list, bounded by fuel
(structural recursion, so every concrete run reduces definitionally).
It accepts objects, arrays, strings without escape sequences, integer
numerals, `true`/`false`/`null` — the JSON fragment the protocol and the
claims exercise; anything else is a parse failure, as it is for the claims'
inputs. -/

/-- JSON insignificant whitespace. -/
def jsonWsChar (c : Char) : Bool :=
  (c = ' ' : Bool) || (c = '\t' : Bool) || (c = '\n' : Bool) || (c = '\r' : Bool)

/-- Drop leading JSON whitespace. -/
def skipWs (cs : List Char) : List Char :=
  cs.dropWhile jsonWsChar

/-- Read the body of a string literal up to the closing quote (escape
sequences are not modelled; none occur in the inputs under verification). -/
def strTail : List Char → Option (List Char × List Char)
  | [] => none
  | '"' :: rest => some ([], rest)
  | '\\' :: _ => none
  | c :: rest =>
      match strTail rest with
      | some (s, r) => some (c :: s, r)
      | none => none

/-- Reader mode: a single value, the elements of an array after `[`, or the
members of an object after `\x7b`. -/
inductive PMode where
  | value : PMode
  | arrTail : PMode
  | objTail : PMode

/-- The fuel-bounded JSON reader. -/
def pj : Nat → PMode → List Char → Option (JsValue × List Char)
  | 0, _, _ => none
  | Nat.succ fuel, PMode.value, cs =>
      match skipWs cs with
      | '"' :: rest =>
          match strTail rest with
          | some (s, r) => some (JsValue.str (String.mk s), r)
          | none => none
      | '[' :: rest =>
          match skipWs rest with
          | ']' :: r => some (JsValue.arr [], r)
          | _ => pj fuel PMode.arrTail rest
      | '{' :: rest =>
          match skipWs rest with
          | '}' :: r => some (JsValue.obj [], r)
          | _ => pj fuel PMode.objTail rest
      | 't' :: 'r' :: 'u' :: 'e' :: r => some (JsValue.bool true, r)
      | 'f' :: 'a' :: 'l' :: 's' :: 'e' :: r => some (JsValue.bool false, r)
      | 'n' :: 'u' :: 'l' :: 'l' :: r => some (JsValue.null, r)
      | '-' :: rest =>
          match rest.span Char.isDigit with
          | (ds, r) =>
              if ds.isEmpty then none
              else some (JsValue.num (-(digitsToNat ds : Int)), r)
      | other =>
          match other.span Char.isDigit with
          | (ds, r) =>
              if ds.isEmpty then none
              else some (JsValue.num (digitsToNat ds : Int), r)
  | Nat.succ fuel, PMode.arrTail, cs =>
      match pj fuel PMode.value cs with
      | some (v, rest) =>
          match skipWs rest with
          | ',' :: r =>
              match pj fuel PMode.arrTail r with
              | some (JsValue.arr vs, r2) => some (JsValue.arr (v :: vs), r2)
              | _ => none
          | ']' :: r => some (JsValue.arr [v], r)
          | _ => none
      | none => none
  | Nat.succ fuel, PMode.objTail, cs =>
      match skipWs cs with
      | '"' :: rest =>
          match strTail rest with
          | some (k, r1) =>
              match skipWs r1 with
              | ':' :: r2 =>
                  match pj fuel PMode.value r2 with
                  | some (v, r3) =>
                      match skipWs r3 with
                      | ',' :: r4 =>
                          match pj fuel PMode.objTail r4 with
                          | some (JsValue.obj fs, r5) =>
                              some (JsValue.obj ((String.mk k, v) :: fs), r5)
                          | _ => none
                      | '}' :: r4 => some (JsValue.obj [(String.mk k, v)], r4)
                      | _ => none
                  | none => none
              | _ => none
          | none => none
      | _ => none

/-- The model of `JSON.parse`: parse one value and require only whitespace
to follow; `none` is a thrown `SyntaxError`. -/
def jsonParse (s : String) : Option JsValue :=
  match pj (s.length * 2 + 4) PMode.value s.data with
  | some (v, rest) => if (skipWs rest).isEmpty then some v else none
  | none => none

/-! ### Byte utilities (`gltfutils.js`) -/

/-- JavaScript `TypedArray.prototype.slice` index normalisation:
negative indices count from the end, indices clamp to the length. -/
def jsNorm (len : Nat) (i : Int) : Nat :=
  if i < 0 then ((len : Int) + i).toNat else min i.toNat len

/-- `frame.slice(a, b)` on a `Uint8Array`. -/
def jsSlice (l : List Nat) (a b : Int) : List Nat :=
  (l.drop (jsNorm l.length a)).take (jsNorm l.length b - jsNorm l.length a)

/-- `bufferToInt32` (gltfutils.js line 37): a `DataView.getInt32(0, true)`
over the sliced bytes — little-endian signed 32-bit; a buffer of fewer than
four bytes makes `getInt32` throw, and the `catch` returns 0. -/
def bufferToInt32 (l : List Nat) : Int :=
  match l with
  | b0 :: b1 :: b2 :: b3 :: _ =>
      let n : Nat := (b0 % 256) + 256 * (b1 % 256) + 65536 * (b2 % 256) +
        16777216 * (b3 % 256)
      if n < 2147483648 then (n : Int) else (n : Int) - 4294967296
  | _ => 0

/-- `String.fromCharCode.apply(null, bytes)`: one character per byte. -/
def stringFromCharCodes (l : List Nat) : String :=
  String.mk (l.map (fun n => Char.ofNat (n % 256)))

/-- `Uint8Array.prototype.toString` — inherited from `Array.prototype`,
so the `"utf8"` argument the source passes is ignored and the result is the
byte values in decimal, joined by commas. -/
def uint8ArrayToString (l : List Nat) : String :=
  String.intercalate "," (l.map (fun n => toString (n % 256)))

/-- `.replace(/\0/g, "")`: delete every NUL character. -/
def jsReplaceNul (s : String) : String :=
  String.mk (s.data.filter (fun c => !(c = '\x00' : Bool)))

/-- A character removed by JavaScript `String.prototype.trim`. -/
def isJsSpace (c : Char) : Bool :=
  [9, 10, 11, 12, 13, 32, 160, 8232, 8233, 65279].contains c.toNat

/-- `String.prototype.trim`. -/
def jsTrim (s : String) : String :=
  String.mk (((s.data.dropWhile isJsSpace).reverse.dropWhile isJsSpace).reverse)

/-! ### The frame decoder (`parseFrame`, gltfutils.js lines 49–83) -/

/-- The `glTF.state` field: the string `"OK"`, or the failure object
`\x7b status: "ERROR_FILE_BAD_JSON", error: err \x7d` (the caught
`SyntaxError` itself carries no information the claims need, so only the
status tag is modelled). -/
inductive FrameState where
  | ok : FrameState
  | badJson : FrameState
  deriving DecidableEq

/-- The decoded frame object.  Fields the decoder has not (yet) assigned
when it returns are `none`, matching the absent properties of the growing
JavaScript object. -/
structure GlTF where
  tag : String
  version : Int
  frameLength : Int
  msgLength : Int
  msgType : String
  state : FrameState
  event : Option JsValue
  dataLength : Option Int
  dataType : Option String
  data : Option (List Nat)

/-- The candidate JSON text of a frame: the `msgLength` bytes from offset
20, decoded by char codes and trimmed (gltfutils.js line 62). -/
def frameMsgText (frame : List Nat) : String :=
  jsTrim (stringFromCharCodes
    (jsSlice frame 20 (20 + bufferToInt32 (jsSlice frame 12 16))))

/-- `parseFrame(frame)`: a line-by-line transcription of
gltfutils.js 49–83.  After a JSON failure the partially filled object is
returned at once; on success, `dataLength`/`dataType` are read after the
JSON text and `data` is the slice whose length comes from `event.filesize`
(a non-numeric or absent `filesize` makes the slice end `NaN`, which
`slice` coerces to 0). -/
def parseFrame (frame : List Nat) : GlTF :=
  let tag := stringFromCharCodes (jsSlice frame 0 4)
  let version := bufferToInt32 (jsSlice frame 4 8)
  let frameLength := bufferToInt32 (jsSlice frame 8 12)
  let msgLength := bufferToInt32 (jsSlice frame 12 16)
  let msgType := stringFromCharCodes (jsSlice frame 16 20)
  let pos : Int := 20 + msgLength
  match jsonParse (frameMsgText frame) with
  | none =>
      { tag := tag, version := version, frameLength := frameLength,
        msgLength := msgLength, msgType := msgType, state := FrameState.badJson,
        event := none, dataLength := none, dataType := none, data := none }
  | some ev =>
      let dataLength := bufferToInt32 (jsSlice frame pos (pos + 4))
      let dataType := jsReplaceNul (uint8ArrayToString (jsSlice frame (pos + 4) (pos + 8)))
      let pos2 : Int := pos + 8
      let dataEnd : Int :=
        match jsGet ev "filesize" with
        | JsValue.num f => pos2 + f
        | _ => 0
      let data := jsSlice frame pos2 dataEnd
      { tag := tag, version := version, frameLength := frameLength,
        msgLength := msgLength, msgType := msgType, state := FrameState.ok,
        event := some ev, dataLength := some dataLength,
        dataType := some dataType, data := some data }

/-! ### The `B3d4api` client (state, dispatcher, correlator, lifecycle) -/

/-- A handler stored in `messageHandlers[key]`.  `seed` is the placeholder
no-op `function() \x7b\x7d` that `_setMessageHandler` installs when a key is
first touched; `builtin k` is `defaultMessageHandlers[k]`; `user i` is an
opaque caller-supplied callable. -/
inductive HandlerV where
  | seed : HandlerV
  | builtin : String → HandlerV
  | user : Nat → HandlerV
  deriving DecidableEq

/-- The mutable fields of one `B3d4api` instance (constructor,
src lines 167–181).  `wsActive` records whether `this.ws` holds a socket
object; pending promise executor pairs are identified by a `Nat`. -/
structure B3d4State where
  host : JsValue
  wsActive : Bool
  sessionId : JsValue
  stationList : JsValue
  currentStation : JsValue
  isPreviewing : Bool
  messageHandlers : List (String × List HandlerV)
  openClientRequests : List (String × Nat)

/-- Observable actions of a run: a handler invocation under a dispatch key,
a pending promise pair settling (`success = true` is `resolve`, `false` is
`reject`), a websocket send/close/create, a `setTimeout` being armed. -/
inductive Ev where
  | handlerCalled : HandlerV → String → Ev
  | pairFired : Nat → Bool → JsValue → Ev
  | wsSent : JsValue → Ev
  | wsClosed : Ev
  | wsOpened : Ev
  | timerSet : String → Ev

/-- `_registerClientRequest` (src 215–220): overwrite any existing entry
under the request name. -/
def registerClientRequest (st : B3d4State) (request_id : String) (pid : Nat) :
    B3d4State :=
  { st with openClientRequests := assocSet st.openClientRequests request_id pid }

/-- `_resolveClientRequest` (src 224–233): if an entry exists, delete it and
settle exactly that pair; otherwise a silent no-op. -/
def resolveClientRequest (st : B3d4State) (request_id : String)
    (success : Bool) (msg : JsValue) : B3d4State × List Ev :=
  match assocGet st.openClientRequests request_id with
  | some pid =>
      ({ st with openClientRequests := assocDelete st.openClientRequests request_id },
       [Ev.pairFired pid success msg])
  | none => (st, [])

/-- The bodies of `defaultMessageHandlers` (src 114–151), keyed by the name
the handler was defined under; any other key is a no-op. -/
def builtinEffect (key : String) (msg : JsValue) (st : B3d4State) :
    B3d4State × List Ev :=
  if key = "connection:close" then
    resolveClientRequest st "connect" false
      (JsValue.obj [("status", JsValue.str "ERROR"),
        ("message", JsValue.str "rejected by websocket onclose()"),
        ("event", JsValue.obj [("code", jsGet msg "code"),
          ("reason", jsGet msg "reason"), ("wasClean", jsGet msg "wasClean")])])
  else if key = "response:connect" then
    (if jsStrictEqStr (jsGet msg "status") "OK" then
      { st with sessionId := jsGet msg "session_id" } else st, [])
  else if key = "response:station_list" then
    (if jsStrictEqStr (jsGet msg "status") "OK" then
      { st with stationList := jsGet msg "stations" } else st, [])
  else if key = "response:station_select" then
    (if jsStrictEqStr (jsGet msg "status") "OK" then
      { st with currentStation := jsGet st.stationList (jsPropKey (jsGet msg "station_id")) }
     else st, [])
  else if key = "response:preview_start" then
    (if jsStrictEqStr (jsGet msg "status") "OK" then
      { st with isPreviewing := true } else st, [])
  else if key = "response:preview_stop" then
    (if jsStrictEqStr (jsGet msg "status") "OK" then
      { st with isPreviewing := false } else st, [])
  else (st, [])

/-- Invoke one handler: its invocation is recorded, then its effect runs
(user handlers and the seed are opaque to session state). -/
def applyHandler (st : B3d4State) (h : HandlerV) (msg : JsValue)
    (key : String) : B3d4State × List Ev :=
  match h with
  | HandlerV.seed => (st, [Ev.handlerCalled HandlerV.seed key])
  | HandlerV.user i => (st, [Ev.handlerCalled (HandlerV.user i) key])
  | HandlerV.builtin k =>
      match builtinEffect k msg st with
      | (st2, evs) => (st2, Ev.handlerCalled (HandlerV.builtin k) key :: evs)

/-- The handler list registered under a key (absent key: `[]`,
src line 207). -/
def getHandlers (st : B3d4State) (key : String) : List HandlerV :=
  (assocGet st.messageHandlers key).getD []

/-- `handlers.forEach(handler => handler.call(this, msg))` over a snapshot
of the list. -/
def runHandlers (hs : List HandlerV) (key : String) (msg : JsValue)
    (st : B3d4State) : B3d4State × List Ev :=
  match hs with
  | [] => (st, [])
  | h :: t =>
      match applyHandler st h msg key with
      | (st1, e1) =>
          match runHandlers t key msg st1 with
          | (st2, e2) => (st2, e1 ++ e2)

/-- `_callMessageHandler` (src 206–211). -/
def callMessageHandler (st : B3d4State) (key : String) (msg : JsValue) :
    B3d4State × List Ev :=
  runHandlers (getHandlers st key) key msg st

/-- `_setMessageHandler` (src 191–203): seed a missing key with the
placeholder; `null` takes `slice(1)` of the list, a callable is pushed. -/
def setMessageHandler (st : B3d4State) (key : String)
    (handler : Option HandlerV) : B3d4State :=
  let mh :=
    if (assocGet st.messageHandlers key).isNone then
      assocSet st.messageHandlers key [HandlerV.seed]
    else st.messageHandlers
  match handler with
  | none =>
      { st with messageHandlers := assocSet mh key (((assocGet mh key).getD []).drop 1) }
  | some h =>
      { st with messageHandlers := assocSet mh key (((assocGet mh key).getD []) ++ [h]) }

/-- The keys of `defaultMessageHandlers`, in definition order. -/
def defaultHandlerKeys : List String :=
  ["connection:open", "connection:close", "response:connect",
   "response:station_list", "response:station_select",
   "response:preview_start", "response:preview_stop"]

/-- `_setDefaultMessageHandlers` (src 184–188). -/
def setDefaultMessageHandlers (st : B3d4State) : B3d4State :=
  defaultHandlerKeys.foldl
    (fun s k => setMessageHandler s k (some (HandlerV.builtin k))) st

/-- The state the constructor builds (src 167–181). -/
def initialState (host : JsValue) : B3d4State :=
  setDefaultMessageHandlers
    { host := host, wsActive := false, sessionId := JsValue.null,
      stationList := JsValue.null, currentStation := JsValue.null,
      isPreviewing := false, messageHandlers := [], openClientRequests := [] }

/-- `handleServerRequest` (src 236–242): nothing unless the name is a
string; then the generic key, then the specific key. -/
def handleServerRequest (st : B3d4State) (request : JsValue) (msg : JsValue) :
    B3d4State × List Ev :=
  match request with
  | JsValue.str s =>
      match callMessageHandler st "request:" msg with
      | (st1, t1) =>
          match callMessageHandler st1 ("request:" ++ s) msg with
          | (st2, t2) => (st2, t1 ++ t2)
  | _ => (st, [])

/-- `handleServerResponse` (src 245–251). -/
def handleServerResponse (st : B3d4State) (response : JsValue) (msg : JsValue) :
    B3d4State × List Ev :=
  match response with
  | JsValue.str s =>
      match callMessageHandler st "response:" msg with
      | (st1, t1) =>
          match callMessageHandler st1 ("response:" ++ s) msg with
          | (st2, t2) => (st2, t1 ++ t2)
  | _ => (st, [])

/-- `sendMessage` (src 278–282): dropped silently without a truthy session
id; otherwise the session id is stamped on and the JSON goes out. -/
def sendMessage (st : B3d4State) (msg : JsValue) : B3d4State × List Ev :=
  if jsTruthy st.sessionId then
    (st, [Ev.wsSent (jsSet msg "session_id" st.sessionId)])
  else (st, [])

/-- The object the timeout timer rejects with (src 306–309), built when the
timer fires, reading the session id current at that moment. -/
def timeoutPayload (st : B3d4State) : JsValue :=
  JsValue.obj [("session_id", st.sessionId), ("message", JsValue.str "timed out")]

/-- The timer armed by `sendRequest` going off (src 303–310). -/
def fireTimeout (st : B3d4State) (request : String) : B3d4State × List Ev :=
  resolveClientRequest st request false (timeoutPayload st)

/-- `sendRequest` (src 286–313).  `pid` identifies the promise executor pair
created by the `new Promise`.  The result is the immediately rejected
promise, or the state after registering, sending, and (for a numeric
non-zero timeout) arming the timer. -/
def sendRequest (st : B3d4State) (msg : JsValue) (timeout : JsValue)
    (pid : Nat) : Except JsValue (B3d4State × List Ev) :=
  if jsTruthy st.sessionId && jsTruthy msg && jsTruthy (jsGet msg "request") then
    let request := jsPropKey (jsGet msg "request")
    let st1 := registerClientRequest st request pid
    match sendMessage st1 msg with
    | (st2, evSend) =>
        let evT :=
          match timeout with
          | JsValue.num n => if !(n = 0 : Bool) then [Ev.timerSet request] else []
          | _ => []
        Except.ok (st2, evSend ++ evT)
  else
    Except.error (JsValue.obj [("status", JsValue.str "ERROR"),
      ("message", JsValue.str "invalid session or invalid request")])

/-- `connect` (src 316–383): adopt a string host, force-fail a still-open
`connect` request, open a fresh socket, register the `connect` pending
request.  (The `onopen`/`onclose`/`onmessage` wiring installs event
reactions, which this model exposes as the separate routing functions.) -/
def connect (st : B3d4State) (host : JsValue) (pid : Nat) :
    B3d4State × List Ev :=
  let stH := match host with
    | JsValue.str s => { st with host := JsValue.str s }
    | _ => st
  match resolveClientRequest stH "connect" false
      (JsValue.obj [("status", JsValue.str "ERROR"),
        ("message", JsValue.str "reset by new connect request")]) with
  | (st1, ev1) =>
      let st2 := { st1 with wsActive := true }
      let st3 := registerClientRequest st2 "connect" pid
      (st3, ev1 ++ [Ev.wsOpened])

/-- The session-reset block of `reconnect` (src 396–401). -/
def resetSession (st : B3d4State) : B3d4State :=
  { st with
    sessionId := JsValue.null,
    stationList := JsValue.null,
    currentStation := JsValue.null,
    isPreviewing := false,
    openClientRequests := [] }

/-- `reconnect` (src 386–403). -/
def reconnect (st : B3d4State) (pid : Nat) :
    Except JsValue (B3d4State × List Ev) :=
  if jsTruthy st.host then
    let closeEvs := if st.wsActive then [Ev.wsClosed] else []
    match connect (resetSession st) JsValue.undef pid with
    | (st2, evs) => Except.ok (st2, closeEvs ++ evs)
  else
    Except.error (JsValue.obj [("status", JsValue.str "ERROR"),
      ("message", JsValue.str "invalid host")])

/-- The binary branch of `ws.onmessage` (src 349–360): decode the frame,
then dispatch a `camera_snap` server request when the embedded event says
`request == "buffer_capture"`, else `camera_frame`; the payload carries the
event's camera and the binary data.  A frame whose JSON failed to parse has
no `event`, so the destructuring in the callback throws and nothing is
dispatched (`none`). -/
def routeGltfFrame (bytes : List Nat) : Option (String × JsValue × List Nat) :=
  let g := parseFrame bytes
  match g.event with
  | some ev =>
      some ((if jsStrictEqStr (jsGet ev "request") "buffer_capture" then
        "camera_snap" else "camera_frame"), jsGet ev "camera", g.data.getD [])
  | none => none

/-- The byte index right after `dataType`, where the binary payload starts:
20-byte header, `msgLength` bytes of JSON, then `dataLength` (4) and
`dataType` (4). -/
def frameDataStart (frame : List Nat) : Int :=
  20 + bufferToInt32 (jsSlice frame 12 16) + 8

/-! ### Concrete protocol inputs used by the scenario claims -/

/-- The event text of the camera-frame scenario (54 bytes). -/
def c2JsonText : String :=
  "\x7b\"request\":\"buffer_capture\",\"camera\":\"c\",\"filesize\":4\x7d"

/-- ASCII bytes of a string. -/
def strBytes (s : String) : List Nat :=
  s.data.map Char.toNat

/-- Little-endian 32-bit encoding of an integer. -/
def int32leBytes (n : Int) : List Nat :=
  let m := (n % 4294967296).toNat
  [m % 256, m / 256 % 256, m / 65536 % 256, m / 16777216 % 256]

/-- The scenario frame: header with the given `msgLength` field, the JSON
event text, `dataLength` 0, `dataType` bytes `jpg` plus a NUL, and a 4-byte
payload (86 bytes in total; the advisory `frameLength` is 86). -/
def c2FrameBytes (msgLen : Int) : List Nat :=
  strBytes "gLTF" ++ int32leBytes 1 ++ int32leBytes 86 ++ int32leBytes msgLen ++
    strBytes "evnt" ++ strBytes c2JsonText ++ int32leBytes 0 ++
    (strBytes "jpg" ++ [0]) ++ [1, 2, 3, 4]

/-- The event object the scenario's JSON text denotes. -/
def c2Event : JsValue :=
  JsValue.obj [("request", JsValue.str "buffer_capture"),
    ("camera", JsValue.str "c"), ("filesize", JsValue.num 4)]

/-! ### Claim C1 -/

/-- A fresh client with two user handlers registered for
`response:station_list`. -/
def c1TwoUsers : B3d4State :=
  setMessageHandler
    (setMessageHandler (initialState (JsValue.str "ws://h"))
      "response:station_list" (some (HandlerV.user 1)))
    "response:station_list" (some (HandlerV.user 2))

/-- `c1TwoUsers` after one clear (`_setMessageHandler(key, null)`). -/
def c1AfterClear : B3d4State :=
  setMessageHandler c1TwoUsers "response:station_list" none

/-- `c1AfterClear` after a second clear. -/
def c1AfterTwoClears : B3d4State :=
  setMessageHandler c1AfterClear "response:station_list" none

/-- C1: the claim says a clear leaves exactly the built-in handler at index
0 (count 1) and that the built-in can never be removed.  The code's
`slice(1)` does the opposite: before the clear the list is
`[seed, builtin, user 1, user 2]` (the real built-in was pushed after the
placeholder), the clear drops index 0 and keeps all three others, and a
second clear removes the built-in itself — contradicting the code's own
comments "leave space for built-in handler" and "alway keep the first one,
which is the built-in handler". -/
theorem c1_clear_drops_first_slot_code_bug :
    getHandlers c1TwoUsers "response:station_list" =
      [HandlerV.seed, HandlerV.builtin "response:station_list",
       HandlerV.user 1, HandlerV.user 2]
    ∧ getHandlers c1AfterClear "response:station_list" =
      [HandlerV.builtin "response:station_list", HandlerV.user 1, HandlerV.user 2]
    ∧ (getHandlers c1AfterClear "response:station_list").length ≠ 1
    ∧ getHandlers c1AfterTwoClears "response:station_list" =
      [HandlerV.user 1, HandlerV.user 2] := by
  refine ⟨by decide, by decide, by decide, by decide⟩

/-! ### Claim C2 -/

/-- C2 counterexample: with the claim's literal bytes the `msgLength` field
is 12, so the extracted text is the first 12 characters of the JSON — not
valid JSON — and the decode stops with the bad-JSON status: there is no
`event` at all, and the Connection Manager dispatches nothing.  Moreover,
even with the corrected `msgLength` 54, `dataType` is not `"jpg"`: the
source calls `toString("utf8")` on a `Uint8Array`, which joins the byte
values with commas. -/
theorem c2_literal_bytes_counterexample :
    (parseFrame (c2FrameBytes 12)).state = FrameState.badJson
    ∧ (parseFrame (c2FrameBytes 12)).event = none
    ∧ routeGltfFrame (c2FrameBytes 12) = none
    ∧ (parseFrame (c2FrameBytes 54)).dataType = some "106,112,103,0"
    ∧ (parseFrame (c2FrameBytes 54)).dataType ≠ some "jpg" := by
  refine ⟨rfl, rfl, rfl, rfl, by decide⟩

/-- C2 amended: with `msgLength` 54 (the actual byte length of the JSON
text) the frame decodes to tag `"gLTF"`, version 1, msgType `"evnt"`, the
parsed event with `request` `"buffer_capture"`, a 4-byte data slice — and
`dataType` `"106,112,103,0"` (the `Uint8Array.toString` artifact; the NUL
stripping has nothing left to strip) — and the Connection Manager
dispatches it as a `camera_snap` server request, not `camera_frame`. -/
theorem c2_amended_frame_decodes_and_routes_camera_snap :
    (parseFrame (c2FrameBytes 54)).tag = "gLTF"
    ∧ (parseFrame (c2FrameBytes 54)).version = 1
    ∧ (parseFrame (c2FrameBytes 54)).msgType = "evnt"
    ∧ (parseFrame (c2FrameBytes 54)).event = some c2Event
    ∧ jsGet c2Event "request" = JsValue.str "buffer_capture"
    ∧ (parseFrame (c2FrameBytes 54)).dataLength = some 0
    ∧ (parseFrame (c2FrameBytes 54)).dataType = some "106,112,103,0"
    ∧ (parseFrame (c2FrameBytes 54)).data = some [1, 2, 3, 4]
    ∧ routeGltfFrame (c2FrameBytes 54) =
        some ("camera_snap", JsValue.str "c", [1, 2, 3, 4]) := by
  refine ⟨rfl, rfl, rfl, rfl, rfl, rfl, rfl, rfl, rfl⟩

/-! ### Association-list facts used by the correlator proofs -/

/-- Reading back the key just set. -/
theorem assocGet_set_self {α : Type} (m : List (String × α)) (k : String)
    (v : α) : assocGet (assocSet m k v) k = some v := by
  induction m with
  | nil => simp [assocGet, assocSet]
  | cons p rest ih =>
      by_cases h : p.1 = k
      · simp [assocGet, assocSet, h]
      · simp [assocGet, assocSet, h, ih]

/-- A deleted key reads back as absent. -/
theorem assocGet_delete_self {α : Type} (m : List (String × α)) (k : String) :
    assocGet (assocDelete m k) k = none := by
  induction m with
  | nil => simp [assocGet, assocDelete]
  | cons p rest ih =>
      by_cases h : p.1 = k
      · simpa [assocDelete, h] using ih
      · simpa [assocDelete, assocGet, h] using ih

/-! ### Claim C3 -/

/-- The station record of the scenario. -/
def c3StationRec : JsValue :=
  JsValue.obj [("station_id", JsValue.str "A")]

/-- The client state with `stationList` holding an ordered sequence (a
JavaScript array) that contains the station record with id `"A"`. -/
def c3State : B3d4State :=
  { initialState (JsValue.str "ws://h") with
    sessionId := JsValue.str "sess",
    stationList := JsValue.arr [c3StationRec] }

/-- The scenario's response message. -/
def c3Msg : JsValue :=
  JsValue.obj [("response_to", JsValue.str "station_select"),
    ("status", JsValue.str "OK"), ("station_id", JsValue.str "A")]

/-- C3 counterexample: with `stationList` an ordered sequence of station
records (as the data model describes it) containing the record with id
`"A"`, handling the `station_select` OK response leaves `currentStation`
`undefined`, not that record: the handler evaluates
`stationList[station_id]`, a property lookup with the key `"A"`, and an
array has no such property. -/
theorem c3_array_station_list_counterexample :
    (handleServerResponse c3State (JsValue.str "station_select") c3Msg).1.currentStation
      = JsValue.undef
    ∧ JsValue.undef ≠ c3StationRec := by
  exact ⟨rfl, fun h => by rw [c3StationRec] at h; exact JsValue.noConfusion h⟩

/-- C3 amended: the built-in `response:station_select` handler sets
`currentStation` to the value of the property of `stationList` named by the
response's `station_id` — which is the station's record exactly when
`stationList` is keyed by station id (e.g. an object mapping ids to
records), and `undefined` when `stationList` is an array of records. -/
theorem c3_amended_station_select_property_lookup (st : B3d4State)
    (msg : JsValue) (sid : String)
    (hok : jsStrictEqStr (jsGet msg "status") "OK" = true)
    (hsid : jsGet msg "station_id" = JsValue.str sid) :
    (builtinEffect "response:station_select" msg st).1.currentStation
      = jsGet st.stationList sid
    ∧ (∀ fs rec, st.stationList = JsValue.obj fs → assocGet fs sid = some rec →
        (builtinEffect "response:station_select" msg st).1.currentStation = rec) := by
  have hmain : (builtinEffect "response:station_select" msg st).1.currentStation
      = jsGet st.stationList sid := by
    simp [builtinEffect, hok, hsid, jsPropKey]
  refine ⟨hmain, ?_⟩
  intro fs rec hfs hrec
  rw [hmain, hfs]
  simp [jsGet, hrec]

/-- C3 amended, witnessed: an id-keyed `stationList` does give the station's
record. -/
theorem c3_amended_station_select_witness :
    (builtinEffect "response:station_select" c3Msg
      { c3State with stationList := JsValue.obj [("A", c3StationRec)] }).1.currentStation
      = c3StationRec := by
  exact (c3_amended_station_select_property_lookup
    { c3State with stationList := JsValue.obj [("A", c3StationRec)] }
    c3Msg "A" (by decide) rfl).2 [("A", c3StationRec)] c3StationRec rfl rfl

/-! ### Claim C4 -/

/-- A connected client about to send a request. -/
def c4State : B3d4State :=
  { initialState (JsValue.str "ws://h") with sessionId := JsValue.str "sess" }

/-- `c4State` with the pending `station_list` request registered under
promise pair 7. -/
def c4Registered : B3d4State :=
  { c4State with openClientRequests := [("station_list", 7)] }

/-- The request message of the scenario. -/
def c4Msg : JsValue :=
  JsValue.obj [("request", JsValue.str "station_list")]

/-- C4 counterexample: `sendRequest(\x7brequest:"station_list"\x7d, 50)`
registers the pending pair and arms the timer; when the timer fires first,
the promise is rejected with
`\x7bsession_id, message: "timed out"\x7d` — an object whose `message`
does contain "timed out" but which carries **no** `status` field at all,
so it does not carry `status: "ERROR"` as the claim states. -/
theorem c4_timeout_payload_lacks_status_counterexample :
    sendRequest c4State c4Msg (JsValue.num 50) 7 =
      Except.ok (c4Registered,
        [Ev.wsSent (JsValue.obj [("request", JsValue.str "station_list"),
          ("session_id", JsValue.str "sess")]),
         Ev.timerSet "station_list"])
    ∧ (fireTimeout c4Registered "station_list").2 =
        [Ev.pairFired 7 false (JsValue.obj [("session_id", JsValue.str "sess"),
          ("message", JsValue.str "timed out")])]
    ∧ jsGet (JsValue.obj [("session_id", JsValue.str "sess"),
        ("message", JsValue.str "timed out")]) "message" = JsValue.str "timed out"
    ∧ jsGet (JsValue.obj [("session_id", JsValue.str "sess"),
        ("message", JsValue.str "timed out")]) "status" = JsValue.undef
    ∧ JsValue.undef ≠ JsValue.str "ERROR" := by
  exact ⟨rfl, rfl, rfl, rfl, fun h => JsValue.noConfusion h⟩

/-- C4 amended: a `sendRequest` with a numeric non-zero timeout arms a
timer for the request's name; if the pending pair is still registered when
the timer fires, the promise pair is rejected with the timeout payload,
whose `message` is `"timed out"` and which has no `status` field
(`status` reads back `undefined`, not `"ERROR"`). -/
theorem c4_amended_timeout_rejects_without_status (st : B3d4State)
    (msg : JsValue) (n : Int) (pid : Nat)
    (hs : jsTruthy st.sessionId = true) (hm : jsTruthy msg = true)
    (hr : jsTruthy (jsGet msg "request") = true) (hn : n ≠ 0) :
    (∃ st2, sendRequest st msg (JsValue.num n) pid =
      Except.ok (st2,
        [Ev.wsSent (jsSet msg "session_id" st.sessionId),
         Ev.timerSet (jsPropKey (jsGet msg "request"))])
      ∧ assocGet st2.openClientRequests (jsPropKey (jsGet msg "request")) = some pid)
    ∧ (∀ stLater : B3d4State,
        assocGet stLater.openClientRequests (jsPropKey (jsGet msg "request")) = some pid →
        (fireTimeout stLater (jsPropKey (jsGet msg "request"))).2 =
          [Ev.pairFired pid false (timeoutPayload stLater)]
        ∧ jsGet (timeoutPayload stLater) "message" = JsValue.str "timed out"
        ∧ jsGet (timeoutPayload stLater) "status" = JsValue.undef) := by
  constructor
  · refine ⟨registerClientRequest st (jsPropKey (jsGet msg "request")) pid, ?_, ?_⟩
    · simp [sendRequest, hs, hm, hr, sendMessage, hn, registerClientRequest]
    · exact assocGet_set_self _ _ _
  · intro stLater hpend
    refine ⟨?_, rfl, rfl⟩
    simp [fireTimeout, resolveClientRequest, hpend]

/-- C4 amended, witnessed at the scenario input. -/
theorem c4_amended_timeout_witness :
    (∃ st2, sendRequest c4State c4Msg (JsValue.num 50) 7 =
      Except.ok (st2,
        [Ev.wsSent (jsSet c4Msg "session_id" c4State.sessionId),
         Ev.timerSet (jsPropKey (jsGet c4Msg "request"))])
      ∧ assocGet st2.openClientRequests (jsPropKey (jsGet c4Msg "request")) = some 7)
    ∧ (∀ stLater : B3d4State,
        assocGet stLater.openClientRequests (jsPropKey (jsGet c4Msg "request")) = some 7 →
        (fireTimeout stLater (jsPropKey (jsGet c4Msg "request"))).2 =
          [Ev.pairFired 7 false (timeoutPayload stLater)]
        ∧ jsGet (timeoutPayload stLater) "message" = JsValue.str "timed out"
        ∧ jsGet (timeoutPayload stLater) "status" = JsValue.undef) := by
  exact c4_amended_timeout_rejects_without_status c4State c4Msg 50 7
    (by decide) (by decide) (by decide) (by decide)

/-! ### Claim C5 -/

/-- Resolving a name with no pending entry is a silent no-op. -/
theorem resolveClientRequest_absent (st : B3d4State) (name : String)
    (succ : Bool) (payload : JsValue)
    (h : assocGet st.openClientRequests name = none) :
    resolveClientRequest st name succ payload = (st, []) := by
  simp only [resolveClientRequest, h]

/-- C5: registering two pending requests under one name and then resolving
that name once fires exactly the later pair; the name is gone afterwards,
so a second resolution attempt is a no-op; the earlier pair never fires. -/
theorem c5_later_registration_wins (st : B3d4State) (name : String)
    (p1 p2 : Nat) (succ : Bool) (payload : JsValue) :
    (resolveClientRequest
        (registerClientRequest (registerClientRequest st name p1) name p2)
        name succ payload).2 = [Ev.pairFired p2 succ payload]
    ∧ assocGet (resolveClientRequest
        (registerClientRequest (registerClientRequest st name p1) name p2)
        name succ payload).1.openClientRequests name = none
    ∧ resolveClientRequest (resolveClientRequest
        (registerClientRequest (registerClientRequest st name p1) name p2)
        name succ payload).1 name succ payload
      = ((resolveClientRequest
          (registerClientRequest (registerClientRequest st name p1) name p2)
          name succ payload).1, [])
    ∧ (p1 ≠ p2 → ∀ b pl, Ev.pairFired p1 b pl ∉ (resolveClientRequest
        (registerClientRequest (registerClientRequest st name p1) name p2)
        name succ payload).2) := by
  have hreg : assocGet
      (registerClientRequest (registerClientRequest st name p1) name p2).openClientRequests
      name = some p2 := by
    simp [registerClientRequest, assocGet_set_self]
  have hfire : (resolveClientRequest
      (registerClientRequest (registerClientRequest st name p1) name p2)
      name succ payload).2 = [Ev.pairFired p2 succ payload] := by
    simp [resolveClientRequest, hreg]
  have hgone : assocGet (resolveClientRequest
      (registerClientRequest (registerClientRequest st name p1) name p2)
      name succ payload).1.openClientRequests name = none := by
    simp [resolveClientRequest, hreg, assocGet_delete_self]
  refine ⟨hfire, hgone, resolveClientRequest_absent _ _ _ _ hgone, ?_⟩
  intro hne b pl hmem
  rw [hfire] at hmem
  simp only [List.mem_singleton] at hmem
  exact hne (by injection hmem)

/-- C5 witness: two registrations of `station_list` under pairs 1 and 2 on
a fresh client, then one successful resolution. -/
theorem c5_later_registration_wins_witness :
    (resolveClientRequest
        (registerClientRequest
          (registerClientRequest (initialState (JsValue.str "ws://h"))
            "station_list" 1) "station_list" 2)
        "station_list" true (JsValue.obj [])).2
      = [Ev.pairFired 2 true (JsValue.obj [])]
    ∧ ((1 : Nat) ≠ 2 → ∀ b pl, Ev.pairFired 1 b pl ∉ (resolveClientRequest
        (registerClientRequest
          (registerClientRequest (initialState (JsValue.str "ws://h"))
            "station_list" 1) "station_list" 2)
        "station_list" true (JsValue.obj [])).2) := by
  exact ⟨(c5_later_registration_wins (initialState (JsValue.str "ws://h"))
      "station_list" 1 2 true (JsValue.obj [])).1,
    (c5_later_registration_wins (initialState (JsValue.str "ws://h"))
      "station_list" 1 2 true (JsValue.obj [])).2.2.2⟩

/-! ### Claim C7 -/

/-- C7: when the embedded text is not valid JSON, `parseFrame` returns (it
never throws: the parse failure is caught) a record carrying the
`ERROR_FILE_BAD_JSON` state together with the already-decoded header
fields, and it has read none of `dataLength`, `dataType`, `data` (nor an
`event`). -/
theorem c7_bad_json_returns_partial_record (frame : List Nat)
    (hbad : jsonParse (frameMsgText frame) = none) :
    parseFrame frame =
      { tag := stringFromCharCodes (jsSlice frame 0 4),
        version := bufferToInt32 (jsSlice frame 4 8),
        frameLength := bufferToInt32 (jsSlice frame 8 12),
        msgLength := bufferToInt32 (jsSlice frame 12 16),
        msgType := stringFromCharCodes (jsSlice frame 16 20),
        state := FrameState.badJson,
        event := none, dataLength := none, dataType := none, data := none } := by
  simp [parseFrame, hbad]

/-- C7 witness: the scenario frame whose `msgLength` field (12) truncates
the JSON text. -/
theorem c7_bad_json_witness :
    parseFrame (c2FrameBytes 12) =
      { tag := stringFromCharCodes (jsSlice (c2FrameBytes 12) 0 4),
        version := bufferToInt32 (jsSlice (c2FrameBytes 12) 4 8),
        frameLength := bufferToInt32 (jsSlice (c2FrameBytes 12) 8 12),
        msgLength := bufferToInt32 (jsSlice (c2FrameBytes 12) 12 16),
        msgType := stringFromCharCodes (jsSlice (c2FrameBytes 12) 16 20),
        state := FrameState.badJson,
        event := none, dataLength := none, dataType := none, data := none } := by
  exact c7_bad_json_returns_partial_record (c2FrameBytes 12) rfl

/-! ### Claim C8 -/

/-- C8: `reconnect()` rejects at once with the `invalid host` error when no
host is configured; otherwise it closes the transport when one exists, and
calls `connect` on the state whose `sessionId`, `stationList`,
`currentStation` and `isPreviewing` have been put back to the constructor's
initial empty values. -/
theorem c8_reconnect_resets_session (st : B3d4State) (pid : Nat) :
    (jsTruthy st.host = false →
      reconnect st pid = Except.error (JsValue.obj [("status", JsValue.str "ERROR"),
        ("message", JsValue.str "invalid host")]))
    ∧ (jsTruthy st.host = true →
      reconnect st pid = Except.ok ((connect (resetSession st) JsValue.undef pid).1,
        (if st.wsActive then [Ev.wsClosed] else [])
          ++ (connect (resetSession st) JsValue.undef pid).2)
      ∧ (resetSession st).sessionId = (initialState st.host).sessionId
      ∧ (resetSession st).stationList = (initialState st.host).stationList
      ∧ (resetSession st).currentStation = (initialState st.host).currentStation
      ∧ (resetSession st).isPreviewing = (initialState st.host).isPreviewing
      ∧ (resetSession st).openClientRequests = (initialState st.host).openClientRequests
      ∧ (st.wsActive = true →
          Ev.wsClosed ∈ (if st.wsActive then [Ev.wsClosed] else [])
            ++ (connect (resetSession st) JsValue.undef pid).2)) := by
  constructor
  · intro hfalse
    simp [reconnect, hfalse]
  · intro htrue
    refine ⟨?_, rfl, rfl, rfl, rfl, rfl, ?_⟩
    · simp [reconnect, htrue]
    · intro hws
      simp [hws]

/-- C8 witness: a host-less client rejects; a configured client with an
open socket closes it and reconnects from the reset session. -/
theorem c8_reconnect_resets_session_witness :
    reconnect { initialState JsValue.null with wsActive := true } 3
      = Except.error (JsValue.obj [("status", JsValue.str "ERROR"),
          ("message", JsValue.str "invalid host")])
    ∧ reconnect { c4State with wsActive := true } 3
        = Except.ok ((connect (resetSession { c4State with wsActive := true })
            JsValue.undef 3).1,
          [Ev.wsClosed] ++ (connect (resetSession { c4State with wsActive := true })
            JsValue.undef 3).2) := by
  constructor
  · exact (c8_reconnect_resets_session
      { initialState JsValue.null with wsActive := true } 3).1 (by decide)
  · exact ((c8_reconnect_resets_session { c4State with wsActive := true } 3).2
      (by decide)).1

/-! ### Claim C9 -/

/-- Recognise a handler-invocation event. -/
def isHandlerCalled : Ev → Bool
  | Ev.handlerCalled _ _ => true
  | _ => false

/-- `_resolveClientRequest` never touches the handler registry. -/
theorem resolveClientRequest_messageHandlers (st : B3d4State) (name : String)
    (succ : Bool) (payload : JsValue) :
    (resolveClientRequest st name succ payload).1.messageHandlers
      = st.messageHandlers := by
  unfold resolveClientRequest
  split <;> rfl

/-- No built-in handler touches the handler registry. -/
theorem builtinEffect_messageHandlers (k : String) (msg : JsValue)
    (st : B3d4State) :
    (builtinEffect k msg st).1.messageHandlers = st.messageHandlers := by
  unfold builtinEffect
  split_ifs <;>
    first
      | apply resolveClientRequest_messageHandlers
      | (split <;> rfl)
      | rfl

/-- A built-in handler's own effect emits no handler-invocation event. -/
theorem builtinEffect_no_calls (k : String) (msg : JsValue) (st : B3d4State) :
    ((builtinEffect k msg st).2).filter isHandlerCalled = [] := by
  unfold builtinEffect
  split_ifs <;>
    first
      | (unfold resolveClientRequest; split <;> rfl)
      | (split <;> rfl)
      | rfl

/-- Invoking one handler preserves the handler registry. -/
theorem applyHandler_messageHandlers (st : B3d4State) (h : HandlerV)
    (msg : JsValue) (key : String) :
    (applyHandler st h msg key).1.messageHandlers = st.messageHandlers := by
  cases h with
  | seed => rfl
  | user i => rfl
  | builtin k =>
      have hb := builtinEffect_messageHandlers k msg st
      rcases he : builtinEffect k msg st with ⟨st2, evs⟩
      rw [he] at hb
      simpa [applyHandler, he] using hb

/-- Invoking one handler contributes exactly its own invocation event. -/
theorem applyHandler_calls (st : B3d4State) (h : HandlerV) (msg : JsValue)
    (key : String) :
    ((applyHandler st h msg key).2).filter isHandlerCalled
      = [Ev.handlerCalled h key] := by
  cases h with
  | seed => rfl
  | user i => rfl
  | builtin k =>
      have hb := builtinEffect_no_calls k msg st
      rcases he : builtinEffect k msg st with ⟨st2, evs⟩
      rw [he] at hb
      simp [applyHandler, he, isHandlerCalled, hb]

/-- Running a handler list preserves the handler registry. -/
theorem runHandlers_messageHandlers (hs : List HandlerV) (key : String)
    (msg : JsValue) : ∀ st : B3d4State,
    (runHandlers hs key msg st).1.messageHandlers = st.messageHandlers := by
  induction hs with
  | nil => intro st; rfl
  | cons h t ih =>
      intro st
      show (runHandlers t key msg (applyHandler st h msg key).1).1.messageHandlers
        = st.messageHandlers
      rw [ih, applyHandler_messageHandlers]

/-- The handler-invocation events of a run are the list's handlers, in
order, under the dispatch key. -/
theorem runHandlers_calls (hs : List HandlerV) (key : String) (msg : JsValue) :
    ∀ st : B3d4State,
    ((runHandlers hs key msg st).2).filter isHandlerCalled
      = hs.map (fun h => Ev.handlerCalled h key) := by
  induction hs with
  | nil => intro st; rfl
  | cons h t ih =>
      intro st
      show ((applyHandler st h msg key).2
          ++ (runHandlers t key msg (applyHandler st h msg key).1).2).filter
            isHandlerCalled = _
      rw [List.filter_append, applyHandler_calls, ih]
      rfl

/-- `_callMessageHandler` preserves the handler registry. -/
theorem callMessageHandler_messageHandlers (st : B3d4State) (key : String)
    (msg : JsValue) :
    (callMessageHandler st key msg).1.messageHandlers = st.messageHandlers :=
  runHandlers_messageHandlers _ _ _ _

/-- The handler invocations of one `_callMessageHandler` are exactly the
handlers registered under the key, in order. -/
theorem callMessageHandler_calls (st : B3d4State) (key : String)
    (msg : JsValue) :
    ((callMessageHandler st key msg).2).filter isHandlerCalled
      = (getHandlers st key).map (fun h => Ev.handlerCalled h key) :=
  runHandlers_calls _ _ _ _

/-- `getHandlers` only reads the handler registry. -/
theorem getHandlers_congr (st1 st2 : B3d4State)
    (h : st1.messageHandlers = st2.messageHandlers) (key : String) :
    getHandlers st1 key = getHandlers st2 key := by
  simp [getHandlers, h]

/-- C9: handling a server request or response with a string name performs
exactly two dispatches — the generic class key first, then the fully
qualified key — so the handler invocations of the run are precisely the
generic key's registered handlers followed by the specific key's. -/
theorem c9_generic_then_specific_dispatch (st : B3d4State) (s : String)
    (msg : JsValue) :
    ((handleServerRequest st (JsValue.str s) msg).2).filter isHandlerCalled
      = (getHandlers st "request:").map (fun h => Ev.handlerCalled h "request:")
        ++ (getHandlers st ("request:" ++ s)).map
            (fun h => Ev.handlerCalled h ("request:" ++ s))
    ∧ ((handleServerResponse st (JsValue.str s) msg).2).filter isHandlerCalled
      = (getHandlers st "response:").map (fun h => Ev.handlerCalled h "response:")
        ++ (getHandlers st ("response:" ++ s)).map
            (fun h => Ev.handlerCalled h ("response:" ++ s)) := by
  constructor
  · show ((callMessageHandler st "request:" msg).2
        ++ (callMessageHandler (callMessageHandler st "request:" msg).1
            ("request:" ++ s) msg).2).filter isHandlerCalled = _
    rw [List.filter_append, callMessageHandler_calls, callMessageHandler_calls,
      getHandlers_congr (callMessageHandler st "request:" msg).1 st
        (callMessageHandler_messageHandlers st "request:" msg) ("request:" ++ s)]
  · show ((callMessageHandler st "response:" msg).2
        ++ (callMessageHandler (callMessageHandler st "response:" msg).1
            ("response:" ++ s) msg).2).filter isHandlerCalled = _
    rw [List.filter_append, callMessageHandler_calls, callMessageHandler_calls,
      getHandlers_congr (callMessageHandler st "response:" msg).1 st
        (callMessageHandler_messageHandlers st "response:" msg) ("response:" ++ s)]

/-! ### Claim C10 -/

/-- C10: a non-string name makes `handleServerRequest` and
`handleServerResponse` return at once — the state (session fields, handler
registry, pending-request map) is returned untouched and no handler event
is produced. -/
theorem c10_non_string_name_is_noop (v msg : JsValue) (st : B3d4State)
    (hv : ∀ s : String, v ≠ JsValue.str s) :
    handleServerRequest st v msg = (st, [])
    ∧ handleServerResponse st v msg = (st, []) := by
  cases v with
  | str s => exact absurd rfl (hv s)
  | undef => exact ⟨rfl, rfl⟩
  | null => exact ⟨rfl, rfl⟩
  | bool b => exact ⟨rfl, rfl⟩
  | num n => exact ⟨rfl, rfl⟩
  | arr xs => exact ⟨rfl, rfl⟩
  | obj fs => exact ⟨rfl, rfl⟩

/-- C10 witness: the numeric name 3. -/
theorem c10_non_string_name_witness :
    handleServerRequest (initialState (JsValue.str "ws://h")) (JsValue.num 3)
      (JsValue.obj []) = (initialState (JsValue.str "ws://h"), [])
    ∧ handleServerResponse (initialState (JsValue.str "ws://h")) (JsValue.num 3)
      (JsValue.obj []) = (initialState (JsValue.str "ws://h"), []) :=
  c10_non_string_name_is_noop (JsValue.num 3) (JsValue.obj [])
    (initialState (JsValue.str "ws://h"))
    (fun _ h => JsValue.noConfusion h)

/-! ### Claim C6 -/

/-- Within bounds, a `slice` is the contiguous bytes from `a` to `b` and
has exactly `b - a` of them. -/
theorem jsSlice_spec (l : List Nat) (a b : Int) (ha : 0 ≤ a) (hab : a ≤ b)
    (hb : b ≤ (l.length : Int)) :
    jsSlice l a b = (l.drop a.toNat).take (b.toNat - a.toNat)
    ∧ (jsSlice l a b).length = (b - a).toNat := by
  unfold jsSlice jsNorm
  have h1 : ¬ a < 0 := not_lt.mpr ha
  have h2 : ¬ b < 0 := by omega
  have hma : min a.toNat l.length = a.toNat := by omega
  have hmb : min b.toNat l.length = b.toNat := by omega
  rw [if_neg h1, if_neg h2, hma, hmb]
  refine ⟨rfl, ?_⟩
  rw [List.length_take, List.length_drop]
  omega

/-- C6: whenever the embedded text parses and the event carries a numeric
`filesize` that fits in the buffer, the decoded `data` is the slice of the
input starting right after `dataType` whose length is exactly `filesize` —
whatever the `dataLength` header said. -/
theorem c6_data_length_is_event_filesize (frame : List Nat) (ev : JsValue)
    (f : Int)
    (hev : (parseFrame frame).event = some ev)
    (hf : jsGet ev "filesize" = JsValue.num f)
    (hf0 : 0 ≤ f)
    (hstart : 0 ≤ frameDataStart frame)
    (hlen : frameDataStart frame + f ≤ (frame.length : Int)) :
    (parseFrame frame).data
      = some (jsSlice frame (frameDataStart frame) (frameDataStart frame + f))
    ∧ ((parseFrame frame).data.getD []).length = f.toNat := by
  cases hj : jsonParse (frameMsgText frame) with
  | none =>
      have : (parseFrame frame).event = none := by simp [parseFrame, hj]
      rw [this] at hev
      exact absurd hev (by simp)
  | some ev2 =>
      have hev2 : (parseFrame frame).event = some ev2 := by simp [parseFrame, hj]
      rw [hev2] at hev
      have hee : ev2 = ev := by injection hev
      subst hee
      have hdata : (parseFrame frame).data
          = some (jsSlice frame (frameDataStart frame) (frameDataStart frame + f)) := by
        simp [parseFrame, hj, hf, frameDataStart]
      refine ⟨hdata, ?_⟩
      rw [hdata]
      have hlenS := (jsSlice_spec frame (frameDataStart frame)
        (frameDataStart frame + f) hstart (by omega) hlen).2
      simp only [Option.getD_some]
      rw [hlenS]
      omega

/-- C6 witness: the corrected scenario frame, whose `dataLength` header is
0 yet whose data slice has the event's `filesize` 4 bytes. -/
theorem c6_data_length_witness :
    (parseFrame (c2FrameBytes 54)).data
      = some (jsSlice (c2FrameBytes 54) (frameDataStart (c2FrameBytes 54))
          (frameDataStart (c2FrameBytes 54) + 4))
    ∧ ((parseFrame (c2FrameBytes 54)).data.getD []).length = (4 : Int).toNat :=
  c6_data_length_is_event_filesize (c2FrameBytes 54) c2Event 4 rfl rfl
    (by decide) (by decide) (by decide)
